import Mathlib

/-
Shallow embedding of the SolveSpace GTK platform layer
(src/platform/guigtk.cpp): the JSON-backed settings store, window
geometry freezing/thawing, pointer-event translation, menu-item
check/radio state, and message-dialog response mapping.

Machine integers are modelled as Nat/Int with explicit reductions
modulo 2^32 at the points where the C code converts between
uint32_t and int32_t.  The `ssassert` macro (which aborts the
process) is modelled by returning `none`.
-/

set_option autoImplicit false

namespace SolveSpace

/-- The C cast `(uint32_t)i` applied to a (mathematical) integer:
reduce modulo 2^32 into the range [0, 2^32). -/
def uint32OfInt (i : Int) : Nat :=
  (i % 4294967296).toNat

/-- The C cast `(int32_t)v` applied to an unsigned value: reduce
modulo 2^32, then reinterpret as a two's-complement signed 32-bit
integer. -/
def int32OfNat (v : Nat) : Int :=
  if v % 4294967296 < 2147483648 then ((v % 4294967296 : Nat) : Int)
  else ((v % 4294967296 : Nat) : Int) - 4294967296

/-- json-c's `json_object_get_int` clamps its internal int64 value to
the int32 range before returning it. -/
def clampI32 (i : Int) : Int :=
  if i < -2147483648 then -2147483648
  else if i > 2147483647 then 2147483647
  else i

/-- A scalar json-c value, as produced by `json_object_new_int`,
`json_object_new_boolean`, `json_object_new_double`, and
`json_object_new_string`. -/
inductive JValue where
  | jint (i : Int)
  | jbool (b : Bool)
  | jdouble (x : Float)
  | jstring (s : String)

/-- A json-c object: an ordered list of key/value entries with
distinct keys looked up by string equality. -/
abbrev JsonObj := List (String × JValue)

/-- json-c's `json_object_object_add`: replace the value of an
existing entry in place, or append a fresh entry. -/
def json_object_object_add : JsonObj → String → JValue → JsonObj
  | [], k, v => [(k, v)]
  | (k0, v0) :: t, k, v =>
      if k0 = k then (k, v) :: t
      else (k0, v0) :: json_object_object_add t k v

/-- json-c's `json_object_object_get_ex`: find the entry under a key,
if any. -/
def json_object_object_get : JsonObj → String → Option JValue
  | [], _ => none
  | (k0, v0) :: t, k =>
      if k0 = k then some v0 else json_object_object_get t k

/-- json-c's `json_object_get_int` (external C library): an int value
is clamped to int32; a boolean converts to 0/1.  The double cast and
the string parse of the C library are not reached by any code path
modelled here and are rendered as 0. -/
def json_object_get_int : JValue → Int
  | .jint i => clampI32 i
  | .jbool b => if b then 1 else 0
  | .jdouble _ => 0
  | .jstring _ => 0

/-- json-c's `json_object_get_boolean` (external C library): booleans
are returned as-is, numbers convert to their comparison with zero,
anything else is false. -/
def json_object_get_boolean : JValue → Bool
  | .jbool b => b
  | .jint i => decide (i ≠ 0)
  | .jdouble x => !(x == 0.0)
  | .jstring _ => false

/-- json-c's `json_object_get_double` (external C library): doubles
are returned as-is and integers/booleans are widened.  The string
parse of the C library is not reached here and is rendered as 0. -/
def json_object_get_double : JValue → Float
  | .jdouble x => x
  | .jint i => Float.ofInt i
  | .jbool b => if b then 1.0 else 0.0
  | .jstring _ => 0.0

/-- json-c's `json_object_get_string` (external C library): strings
are returned as-is, other scalars are serialized.  The double format
of the C library is not reached here and is rendered as "". -/
def json_object_get_string : JValue → String
  | .jstring s => s
  | .jint i => toString i
  | .jbool b => if b then "true" else "false"
  | .jdouble _ => ""

/-- The state of `SettingsImplGtk`: the settings file path `_path`
and the in-memory json object `_json`. -/
structure SettingsStore where
  path : String
  json : JsonObj

/-- `SettingsImplGtk::FreezeInt`: the `uint32_t value` parameter is
stored through `json_object_new_int`, whose `int32_t` parameter
applies the C cast. -/
def SettingsImplGtk.FreezeInt (s : SettingsStore) (key : String) (value : Nat) : SettingsStore :=
  { s with json := json_object_object_add s.json key (.jint (int32OfNat value)) }

/-- `SettingsImplGtk::ThawInt`: look the key up; on a hit return
`json_object_get_int` cast back to `uint32_t`, otherwise the default.
The store is returned unchanged alongside the result. -/
def SettingsImplGtk.ThawInt (s : SettingsStore) (key : String) (defaultValue : Nat) : Nat × SettingsStore :=
  match json_object_object_get s.json key with
  | some jsonValue => (uint32OfInt (json_object_get_int jsonValue), s)
  | none => (defaultValue, s)

/-- `SettingsImplGtk::FreezeBool`. -/
def SettingsImplGtk.FreezeBool (s : SettingsStore) (key : String) (value : Bool) : SettingsStore :=
  { s with json := json_object_object_add s.json key (.jbool value) }

/-- `SettingsImplGtk::ThawBool`. -/
def SettingsImplGtk.ThawBool (s : SettingsStore) (key : String) (defaultValue : Bool) : Bool × SettingsStore :=
  match json_object_object_get s.json key with
  | some jsonValue => (json_object_get_boolean jsonValue, s)
  | none => (defaultValue, s)

/-- `SettingsImplGtk::FreezeFloat`. -/
def SettingsImplGtk.FreezeFloat (s : SettingsStore) (key : String) (value : Float) : SettingsStore :=
  { s with json := json_object_object_add s.json key (.jdouble value) }

/-- `SettingsImplGtk::ThawFloat`. -/
def SettingsImplGtk.ThawFloat (s : SettingsStore) (key : String) (defaultValue : Float) : Float × SettingsStore :=
  match json_object_object_get s.json key with
  | some jsonValue => (json_object_get_double jsonValue, s)
  | none => (defaultValue, s)

/-- `SettingsImplGtk::FreezeString`. -/
def SettingsImplGtk.FreezeString (s : SettingsStore) (key : String) (value : String) : SettingsStore :=
  { s with json := json_object_object_add s.json key (.jstring value) }

/-- `SettingsImplGtk::ThawString`. -/
def SettingsImplGtk.ThawString (s : SettingsStore) (key : String) (defaultValue : String) : String × SettingsStore :=
  match json_object_object_get s.json key with
  | some jsonValue => (json_object_get_string jsonValue, s)
  | none => (defaultValue, s)

/-- An empty in-memory settings store with no backing file. -/
def emptySettings : SettingsStore := { path := "", json := [] }

/-- One Freeze call on the settings store, used to speak about keys
that have (or have not) been frozen. -/
inductive FreezeOp where
  | fint (k : String) (v : Nat)
  | fbool (k : String) (b : Bool)
  | ffloat (k : String) (x : Float)
  | fstr (k : String) (s : String)

/-- The key a Freeze call writes to. -/
def FreezeOp.key : FreezeOp → String
  | .fint k _ => k
  | .fbool k _ => k
  | .ffloat k _ => k
  | .fstr k _ => k

/-- Apply one Freeze call to a store. -/
def applyFreeze (s : SettingsStore) : FreezeOp → SettingsStore
  | .fint k v => SettingsImplGtk.FreezeInt s k v
  | .fbool k b => SettingsImplGtk.FreezeBool s k b
  | .ffloat k x => SettingsImplGtk.FreezeFloat s k x
  | .fstr k v => SettingsImplGtk.FreezeString s k v

/-- Apply a sequence of Freeze calls to a store. -/
def applyFreezes (s : SettingsStore) : List FreezeOp → SettingsStore
  | [] => s
  | op :: ops => applyFreezes (applyFreeze s op) ops

/-- Modelled from the spec: a filesystem path (`Platform::Path` is
declared outside the supplied source).  `Path::From` wraps a raw
string, `Join` appends one component after a separator, and
`IsEmpty` tests for the empty raw string. -/
def pathFrom (s : String) : String := s

/-- Modelled from the spec: `Path::Join` appends a path component. -/
def pathJoin (a b : String) : String := a ++ "/" ++ b

/-- Modelled from the spec: `Path::IsEmpty`. -/
def pathIsEmpty (s : String) : Bool := s = ""

/-- The process environment as `GetConfigPath` reads it:
the values of `XDG_CONFIG_HOME` and `HOME` (none when unset). -/
structure EnvModel where
  xdgConfigHome : Option String
  home : Option String

/-- Outcome of the `stat` call on the config directory. -/
inductive StatResult where
  | statDir
  | statNonDir
  | statErrENOENT
  | statErrOther

/-- The filesystem as the settings code observes it: the result of
`stat` on a path, whether `mkdir` succeeds on a path, and the result
of `json_object_from_file` on a path (`none` when the call fails). -/
structure FsModel where
  statPath : String → StatResult
  mkdirOk : String → Bool
  loadJson : String → Option JsonObj

/-- The tail of `SettingsImplGtk::GetConfigPath` after `configHome`
has been selected from the environment: append "solvespace" when
nonempty, then create/verify the directory and return the path of
"settings.json" inside it, or the empty path on failure. -/
def getConfigPathTail (configHome0 : String) (fs : FsModel) : String :=
  let configHome :=
    if !(pathIsEmpty configHome0) then pathJoin configHome0 "solvespace" else configHome0
  match fs.statPath configHome with
  | .statErrENOENT =>
      if fs.mkdirOk configHome then pathJoin configHome "settings.json"
      else pathFrom ""
  | .statErrOther => pathFrom ""
  | .statNonDir => pathFrom ""
  | .statDir => pathJoin configHome "settings.json"

/-- `SettingsImplGtk::GetConfigPath`: prefer `XDG_CONFIG_HOME`, fall
back to `HOME/.config`, and give up (empty path) when neither
environment variable is set. -/
def SettingsImplGtk.GetConfigPath (env : EnvModel) (fs : FsModel) : String :=
  match env.xdgConfigHome, env.home with
  | some xdg, _ => getConfigPathTail (pathFrom xdg) fs
  | none, some h => getConfigPathTail (pathJoin (pathFrom h) ".config") fs
  | none, none => pathFrom ""

/-- The `SettingsImplGtk` constructor: compute the config path; when
it is nonempty try to load the settings file; when nothing was
loaded start from a fresh empty json object.  Load failures are only
logged (`dbp`), which has no observable effect here. -/
def SettingsImplGtk.mk (env : EnvModel) (fs : FsModel) : SettingsStore :=
  let path := SettingsImplGtk.GetConfigPath env fs
  let loaded := if pathIsEmpty path then none else fs.loadJson path
  { path := path, json := loaded.getD [] }

/-- The window state the geometry code observes and updates:
`get_position`, `get_size`, `is_maximized`, `is_visible` read these
fields and `move`, `resize`, `maximize` update them. -/
structure WindowState where
  left : Int
  top : Int
  width : Int
  height : Int
  maximized : Bool
  visible : Bool

/-- `WindowImplGtk::FreezePosition`: when the window is not visible
do nothing; otherwise store position and size (each `int` passed to
the `uint32_t` parameter of `FreezeInt`) under the "_Left", "_Top",
"_Width", "_Height" suffixes and the maximized flag under
"_Maximized". -/
def WindowImplGtk.FreezePosition (w : WindowState) (s : SettingsStore) (key : String) : SettingsStore :=
  if w.visible = false then s
  else
    let s1 := SettingsImplGtk.FreezeInt s (key ++ "_Left") (uint32OfInt w.left)
    let s2 := SettingsImplGtk.FreezeInt s1 (key ++ "_Top") (uint32OfInt w.top)
    let s3 := SettingsImplGtk.FreezeInt s2 (key ++ "_Width") (uint32OfInt w.width)
    let s4 := SettingsImplGtk.FreezeInt s3 (key ++ "_Height") (uint32OfInt w.height)
    SettingsImplGtk.FreezeBool s4 (key ++ "_Maximized") w.maximized

/-- `WindowImplGtk::ThawPosition`: thaw position and size with the
window's current geometry as defaults (each `uint32_t` result cast
back to `int`), `move` and `resize` the window accordingly, and
`maximize` it when the "_Maximized" flag thaws to true (default
false); the maximized state is never cleared. -/
def WindowImplGtk.ThawPosition (w : WindowState) (s : SettingsStore) (key : String) : WindowState :=
  let left := int32OfNat (SettingsImplGtk.ThawInt s (key ++ "_Left") (uint32OfInt w.left)).1
  let top := int32OfNat (SettingsImplGtk.ThawInt s (key ++ "_Top") (uint32OfInt w.top)).1
  let width := int32OfNat (SettingsImplGtk.ThawInt s (key ++ "_Width") (uint32OfInt w.width)).1
  let height := int32OfNat (SettingsImplGtk.ThawInt s (key ++ "_Height") (uint32OfInt w.height)).1
  let w1 := { w with left := left, top := top, width := width, height := height }
  if (SettingsImplGtk.ThawBool s (key ++ "_Maximized") false).1 then
    { w1 with maximized := true }
  else w1

/-- Modelled from the spec: the type tag of the toolkit-neutral
mouse-event record (declared in the platform header outside the
supplied source). -/
inductive MouseEventType where
  | MOTION
  | PRESS
  | DBL_PRESS
  | RELEASE
  | SCROLL_VERT
  | LEAVE

/-- Modelled from the spec: the button field of the toolkit-neutral
mouse-event record; zero-initialization (`event = ..`) yields the
first enumerator, carrying no button. -/
inductive MouseButton where
  | NONE
  | LEFT
  | MIDDLE
  | RIGHT

/-- Modelled from the spec: the toolkit-neutral mouse-event record
(type, coordinates, button, shift/control modifiers, scroll
delta). -/
structure MouseEvent where
  type : MouseEventType
  x : Float
  y : Float
  shiftDown : Bool
  controlDown : Bool
  button : MouseButton
  scrollDelta : Int

/-- GDK modifier-mask bit for Shift. -/
def GDK_SHIFT_MASK : Nat := 1

/-- GDK modifier-mask bit for Control. -/
def GDK_CONTROL_MASK : Nat := 4

/-- GDK modifier-mask bit for mouse button 1. -/
def GDK_BUTTON1_MASK : Nat := 256

/-- GDK modifier-mask bit for mouse button 2. -/
def GDK_BUTTON2_MASK : Nat := 512

/-- GDK modifier-mask bit for mouse button 3. -/
def GDK_BUTTON3_MASK : Nat := 1024

/-- The mouse-event record built by
`GtkGLWidget::process_pointer_event`: starting from the
zero-initialized record it sets type and coordinates, picks the
button from the explicit button number or the held-button bits of
`state` (left before middle before right), reads the shift/control
modifiers from `state`, and copies a nonzero scroll delta. -/
def pointerMouseEvent (type : MouseEventType) (x y : Float) (state : Nat)
    (button : Nat) (scroll_delta : Int) : MouseEvent :=
  { type := type
    x := x
    y := y
    shiftDown := decide (Nat.land state GDK_SHIFT_MASK ≠ 0)
    controlDown := decide (Nat.land state GDK_CONTROL_MASK ≠ 0)
    button :=
      if button = 1 ∨ Nat.land state GDK_BUTTON1_MASK ≠ 0 then .LEFT
      else if button = 2 ∨ Nat.land state GDK_BUTTON2_MASK ≠ 0 then .MIDDLE
      else if button = 3 ∨ Nat.land state GDK_BUTTON3_MASK ≠ 0 then .RIGHT
      else .NONE
    scrollDelta := if scroll_delta ≠ 0 then scroll_delta else 0 }

/-- `GtkGLWidget::process_pointer_event`: build the mouse-event
record and hand it to the window's `onMouseEvent` callback when one
is registered (returning its result); report the event as not
consumed otherwise. -/
def process_pointer_event (onMouseEvent : Option (MouseEvent → Bool))
    (type : MouseEventType) (x y : Float) (state : Nat)
    (button : Nat) (scroll_delta : Int) : Bool :=
  match onMouseEvent with
  | some callback => callback (pointerMouseEvent type x y state button scroll_delta)
  | none => false

/-- Modelled from the spec: the check/radio indicator selector of the
abstract `MenuItem` interface (declared outside the supplied
source). -/
inductive Indicator where
  | NONE
  | CHECK_MARK
  | RADIO_MARK

/-- The state of the `GtkMenuItem` subclass of `Gtk::CheckMenuItem`:
the toolkit's check state, the `_has_indicator` flag, whether the
item is drawn as a radio item, and the `_synthetic_event` flag. -/
structure GtkMenuItemState where
  gtkActive : Bool
  hasIndicator : Bool
  drawAsRadio : Bool
  syntheticEvent : Bool

/-- `GtkMenuItem::on_activate`: after the toolkit's own handling, the
receiver's `onTrigger` callback runs exactly when the activation is
not synthetic and a callback is registered.  The boolean returned
tells whether `onTrigger` ran. -/
def GtkMenuItem.on_activate (synthetic : Bool) (hasOnTrigger : Bool) : Bool :=
  !synthetic && hasOnTrigger

/-- Modelled from the toolkit: `Gtk::CheckMenuItem::set_active`
updates the check state and, when the state changes, emits the
activate signal, which runs `GtkMenuItem::on_activate`.  Returns the
new state and whether `onTrigger` ran. -/
def checkMenuItemSetActiveBase (st : GtkMenuItemState) (hasOnTrigger : Bool)
    (active : Bool) : GtkMenuItemState × Bool :=
  if st.gtkActive = active then (st, false)
  else ({ st with gtkActive := active },
        GtkMenuItem.on_activate st.syntheticEvent hasOnTrigger)

/-- `GtkMenuItem::set_active`: return immediately when the requested
state equals the current one; otherwise raise `_synthetic_event`
around the base-class call and lower it again.  Returns the new
state and whether `onTrigger` ran. -/
def GtkMenuItem.set_active (st : GtkMenuItemState) (hasOnTrigger : Bool)
    (active : Bool) : GtkMenuItemState × Bool :=
  if st.gtkActive = active then (st, false)
  else
    let st1 := { st with syntheticEvent := true }
    let r := checkMenuItemSetActiveBase st1 hasOnTrigger active
    ({ r.1 with syntheticEvent := false }, r.2)

/-- Modelled from the toolkit: a user-initiated activation toggles
the check state and emits the activate signal, running
`GtkMenuItem::on_activate` with the current `_synthetic_event` flag
(false outside `set_active`). -/
def GtkMenuItem.userActivate (st : GtkMenuItemState) (hasOnTrigger : Bool) :
    GtkMenuItemState × Bool :=
  ({ st with gtkActive := !st.gtkActive },
   GtkMenuItem.on_activate st.syntheticEvent hasOnTrigger)

/-- `MenuItemImplGtk::SetIndicator`: NONE clears `_has_indicator`;
CHECK_MARK sets it with plain check drawing; RADIO_MARK sets it with
radio drawing. -/
def MenuItemImplGtk.SetIndicator (st : GtkMenuItemState) : Indicator → GtkMenuItemState
  | .NONE => { st with hasIndicator := false }
  | .CHECK_MARK => { st with hasIndicator := true, drawAsRadio := false }
  | .RADIO_MARK => { st with hasIndicator := true, drawAsRadio := true }

/-- `MenuItemImplGtk::SetActive`: `ssassert` that the item has an
indicator (modelled as `none` on failure), then forward to
`GtkMenuItem::set_active`. -/
def MenuItemImplGtk.SetActive (st : GtkMenuItemState) (hasOnTrigger : Bool)
    (active : Bool) : Option (GtkMenuItemState × Bool) :=
  if st.hasIndicator then some (GtkMenuItem.set_active st hasOnTrigger active)
  else none

/-- Modelled from the spec: the `MessageDialog::Response` enum
(declared outside the supplied source); the values used by
`AddButton` and `RunModal` are NONE, OK, YES, NO, CANCEL. -/
inductive Response where
  | NONE
  | OK
  | YES
  | NO
  | CANCEL
  deriving DecidableEq

/-- GTK response-type constant `Gtk::RESPONSE_NONE`. -/
def GTK_RESPONSE_NONE : Int := -1

/-- GTK response-type constant `Gtk::RESPONSE_DELETE_EVENT`. -/
def GTK_RESPONSE_DELETE_EVENT : Int := -4

/-- GTK response-type constant `Gtk::RESPONSE_OK`. -/
def GTK_RESPONSE_OK : Int := -5

/-- GTK response-type constant `Gtk::RESPONSE_CANCEL`. -/
def GTK_RESPONSE_CANCEL : Int := -6

/-- GTK response-type constant `Gtk::RESPONSE_CLOSE`. -/
def GTK_RESPONSE_CLOSE : Int := -7

/-- GTK response-type constant `Gtk::RESPONSE_YES`. -/
def GTK_RESPONSE_YES : Int := -8

/-- GTK response-type constant `Gtk::RESPONSE_NO`. -/
def GTK_RESPONSE_NO : Int := -9

/-- The response-id switch of `MessageDialogImplGtk::AddButton`:
`ssassert(false, ..)` on `Response::NONE` is modelled as `none`; the
other responses map to their GTK response ids. -/
def MessageDialogImplGtk.AddButton : Response → Option Int
  | .NONE => none
  | .OK => some GTK_RESPONSE_OK
  | .YES => some GTK_RESPONSE_YES
  | .NO => some GTK_RESPONSE_NO
  | .CANCEL => some GTK_RESPONSE_CANCEL

/-- The switch of `MessageDialogImplGtk::RunModal` over the GTK
response id the dialog reported: OK/YES/NO/CANCEL map to their
responses, NONE/CLOSE/DELETE_EVENT map to `Response::NONE`, and any
other id hits `ssassert(false, ..)`, modelled as `none`. -/
def MessageDialogImplGtk.RunModal (gtkResponse : Int) : Option Response :=
  if gtkResponse = GTK_RESPONSE_OK then some .OK
  else if gtkResponse = GTK_RESPONSE_YES then some .YES
  else if gtkResponse = GTK_RESPONSE_NO then some .NO
  else if gtkResponse = GTK_RESPONSE_CANCEL then some .CANCEL
  else if gtkResponse = GTK_RESPONSE_NONE ∨ gtkResponse = GTK_RESPONSE_CLOSE ∨
          gtkResponse = GTK_RESPONSE_DELETE_EVENT then some .NONE
  else none

/-! ## Helper lemmas -/

theorem jsonGet_add_self (l : JsonObj) (k : String) (v : JValue) :
    json_object_object_get (json_object_object_add l k v) k = some v := by
  induction l with
  | nil => simp [json_object_object_add, json_object_object_get]
  | cons hd t ih =>
      obtain ⟨k0, v0⟩ := hd
      by_cases hk : k0 = k
      · simp [json_object_object_add, json_object_object_get, hk]
      · simp [json_object_object_add, json_object_object_get, hk, ih]

theorem jsonGet_add_ne (l : JsonObj) (k k' : String) (v : JValue) (h : k ≠ k') :
    json_object_object_get (json_object_object_add l k v) k'
      = json_object_object_get l k' := by
  induction l with
  | nil => simp [json_object_object_add, json_object_object_get, h]
  | cons hd t ih =>
      obtain ⟨k0, v0⟩ := hd
      by_cases hk : k0 = k
      · subst hk
        simp [json_object_object_add, json_object_object_get, h]
      · simp [json_object_object_add, json_object_object_get, hk, ih]

theorem clampI32_int32OfNat (v : Nat) :
    clampI32 (int32OfNat v) = int32OfNat v := by
  unfold clampI32 int32OfNat
  have h1 : v % 4294967296 < 4294967296 := Nat.mod_lt _ (by omega)
  split_ifs <;> omega

theorem uint32OfInt_int32OfNat (v : Nat) (h : v < 4294967296) :
    uint32OfInt (int32OfNat v) = v := by
  unfold uint32OfInt int32OfNat
  have h1 : v % 4294967296 = v := Nat.mod_eq_of_lt h
  split_ifs <;> omega

theorem int32OfNat_uint32OfInt (i : Int) (h1 : -2147483648 ≤ i) (h2 : i < 2147483648) :
    int32OfNat (uint32OfInt i) = i := by
  unfold int32OfNat uint32OfInt
  have h3 : i % 4294967296 = if 0 ≤ i then i else i + 4294967296 := by
    split_ifs with h4
    · exact Int.emod_eq_of_lt h4 (by omega)
    · omega
  split_ifs <;> omega

theorem clampI32_eq_self (i : Int) (h1 : -2147483648 ≤ i) (h2 : i < 2147483648) :
    clampI32 i = i := by
  unfold clampI32
  split_ifs <;> omega

theorem strAppend_ne (key a b : String) (h : a ≠ b) : key ++ a ≠ key ++ b := by
  intro hk
  apply h
  have hd := congrArg String.data hk
  simp only [String.data_append] at hd
  have h2 : a.data = b.data := List.append_cancel_left hd
  cases a
  cases b
  exact congrArg String.mk h2

theorem get_applyFreezes_none (ops : List FreezeOp) (s : SettingsStore) (k : String)
    (h0 : json_object_object_get s.json k = none)
    (h : ∀ op ∈ ops, FreezeOp.key op ≠ k) :
    json_object_object_get (applyFreezes s ops).json k = none := by
  induction ops generalizing s with
  | nil => exact h0
  | cons op ops ih =>
      have hop : FreezeOp.key op ≠ k := h op (by simp)
      apply ih
      · cases op <;>
          simpa [applyFreeze, SettingsImplGtk.FreezeInt, SettingsImplGtk.FreezeBool,
                 SettingsImplGtk.FreezeFloat, SettingsImplGtk.FreezeString,
                 jsonGet_add_ne _ _ _ _ (by simpa [FreezeOp.key] using hop)] using h0
      · intro op' hop'
        exact h op' (by simp [hop'])

theorem freezePosition_gets (w : WindowState) (s : SettingsStore) (key : String)
    (hvis : w.visible = true) :
    json_object_object_get (WindowImplGtk.FreezePosition w s key).json (key ++ "_Left")
      = some (.jint (int32OfNat (uint32OfInt w.left))) ∧
    json_object_object_get (WindowImplGtk.FreezePosition w s key).json (key ++ "_Top")
      = some (.jint (int32OfNat (uint32OfInt w.top))) ∧
    json_object_object_get (WindowImplGtk.FreezePosition w s key).json (key ++ "_Width")
      = some (.jint (int32OfNat (uint32OfInt w.width))) ∧
    json_object_object_get (WindowImplGtk.FreezePosition w s key).json (key ++ "_Height")
      = some (.jint (int32OfNat (uint32OfInt w.height))) ∧
    json_object_object_get (WindowImplGtk.FreezePosition w s key).json (key ++ "_Maximized")
      = some (.jbool w.maximized) := by
  refine ⟨?_, ?_, ?_, ?_, ?_⟩ <;>
    simp [WindowImplGtk.FreezePosition, hvis, SettingsImplGtk.FreezeInt,
          SettingsImplGtk.FreezeBool, jsonGet_add_self,
          jsonGet_add_ne _ _ _ _ (strAppend_ne key "_Maximized" "_Left" (by decide)),
          jsonGet_add_ne _ _ _ _ (strAppend_ne key "_Maximized" "_Top" (by decide)),
          jsonGet_add_ne _ _ _ _ (strAppend_ne key "_Maximized" "_Width" (by decide)),
          jsonGet_add_ne _ _ _ _ (strAppend_ne key "_Maximized" "_Height" (by decide)),
          jsonGet_add_ne _ _ _ _ (strAppend_ne key "_Height" "_Left" (by decide)),
          jsonGet_add_ne _ _ _ _ (strAppend_ne key "_Height" "_Top" (by decide)),
          jsonGet_add_ne _ _ _ _ (strAppend_ne key "_Height" "_Width" (by decide)),
          jsonGet_add_ne _ _ _ _ (strAppend_ne key "_Width" "_Left" (by decide)),
          jsonGet_add_ne _ _ _ _ (strAppend_ne key "_Width" "_Top" (by decide)),
          jsonGet_add_ne _ _ _ _ (strAppend_ne key "_Top" "_Left" (by decide))]

theorem pathJoin_ne_empty (a b : String) : pathJoin a b ≠ "" := by
  intro h
  have hl := congrArg String.length h
  simp [pathJoin, String.length_append] at hl
  exact absurd hl.1.2 (by decide)

/-- The config directory is usable: it exists as a directory, or it
does not exist and `mkdir` succeeds. -/
def dirUsable (fs : FsModel) (p : String) : Prop :=
  fs.statPath p = StatResult.statDir ∨
  (fs.statPath p = StatResult.statErrENOENT ∧ fs.mkdirOk p = true)

/-- An environment with `XDG_CONFIG_HOME=/xdg` and `HOME` unset. -/
def envX0 : EnvModel := EnvModel.mk (some "/xdg") none

/-- A filesystem where every directory exists and every
`json_object_from_file` call fails. -/
def fsDirOkLoadFail : FsModel :=
  FsModel.mk (fun _ => StatResult.statDir) (fun _ => true) (fun _ => none)

/-- A visible, non-maximized window with concrete geometry. -/
def wVisA : WindowState := WindowState.mk 10 20 300 200 false true

/-- A visible, maximized window with concrete geometry. -/
def wMaxB : WindowState := WindowState.mk 1 2 3 4 true true

/-! ## Claim theorems -/

/-- Claim C1: freezing a scalar value under a key and then thawing
the same key with the matching Thaw operation returns the stored
value, for every store, key, and scalar value, regardless of the
default passed to Thaw (the integer value lies in the `uint32_t`
domain of `FreezeInt`). -/
theorem c1_freeze_thaw_roundtrip (s : SettingsStore) (k : String)
    (vi : Nat) (hvi : vi < 4294967296) (vb : Bool) (vf : Float) (vs : String)
    (di : Nat) (db : Bool) (df : Float) (ds : String) :
    SettingsImplGtk.ThawInt (SettingsImplGtk.FreezeInt s k vi) k di
      = (vi, SettingsImplGtk.FreezeInt s k vi) ∧
    SettingsImplGtk.ThawBool (SettingsImplGtk.FreezeBool s k vb) k db
      = (vb, SettingsImplGtk.FreezeBool s k vb) ∧
    SettingsImplGtk.ThawFloat (SettingsImplGtk.FreezeFloat s k vf) k df
      = (vf, SettingsImplGtk.FreezeFloat s k vf) ∧
    SettingsImplGtk.ThawString (SettingsImplGtk.FreezeString s k vs) k ds
      = (vs, SettingsImplGtk.FreezeString s k vs) := by
  refine ⟨?_, ?_, ?_, ?_⟩
  · simp [SettingsImplGtk.ThawInt, SettingsImplGtk.FreezeInt, jsonGet_add_self,
          json_object_get_int, clampI32_int32OfNat, uint32OfInt_int32OfNat _ hvi]
  · simp [SettingsImplGtk.ThawBool, SettingsImplGtk.FreezeBool, jsonGet_add_self,
          json_object_get_boolean]
  · simp [SettingsImplGtk.ThawFloat, SettingsImplGtk.FreezeFloat, jsonGet_add_self,
          json_object_get_double]
  · simp [SettingsImplGtk.ThawString, SettingsImplGtk.FreezeString, jsonGet_add_self,
          json_object_get_string]

/-- Concrete instance of C1 at an explicit input. -/
theorem c1_freeze_thaw_roundtrip_witness :
    (3 : Nat) < 4294967296 ∧
    (SettingsImplGtk.ThawInt (SettingsImplGtk.FreezeInt emptySettings "k" 3) "k" 7
       = (3, SettingsImplGtk.FreezeInt emptySettings "k" 3) ∧
     SettingsImplGtk.ThawBool (SettingsImplGtk.FreezeBool emptySettings "k" true) "k" false
       = (true, SettingsImplGtk.FreezeBool emptySettings "k" true) ∧
     SettingsImplGtk.ThawFloat (SettingsImplGtk.FreezeFloat emptySettings "k" 2.5) "k" 0.0
       = (2.5, SettingsImplGtk.FreezeFloat emptySettings "k" 2.5) ∧
     SettingsImplGtk.ThawString (SettingsImplGtk.FreezeString emptySettings "k" "v") "k" "d"
       = ("v", SettingsImplGtk.FreezeString emptySettings "k" "v")) :=
  ⟨by decide,
   c1_freeze_thaw_roundtrip emptySettings "k" 3 (by decide) true 2.5 "v" 7 false 0.0 "d"⟩

/-- Claim C2: thawing a key that has never been frozen (starting from
a store that lacks the key and applying any sequence of Freeze calls
to other keys) returns exactly the supplied default and leaves the
store unchanged, for each of the four Thaw operations. -/
theorem c2_unset_key_returns_default (s0 : SettingsStore) (k : String)
    (h0 : json_object_object_get s0.json k = none)
    (ops : List FreezeOp) (hops : ∀ op ∈ ops, FreezeOp.key op ≠ k)
    (di : Nat) (db : Bool) (df : Float) (ds : String) :
    SettingsImplGtk.ThawInt (applyFreezes s0 ops) k di = (di, applyFreezes s0 ops) ∧
    SettingsImplGtk.ThawBool (applyFreezes s0 ops) k db = (db, applyFreezes s0 ops) ∧
    SettingsImplGtk.ThawFloat (applyFreezes s0 ops) k df = (df, applyFreezes s0 ops) ∧
    SettingsImplGtk.ThawString (applyFreezes s0 ops) k ds = (ds, applyFreezes s0 ops) := by
  have hg := get_applyFreezes_none ops s0 k h0 hops
  exact ⟨by simp [SettingsImplGtk.ThawInt, hg],
         by simp [SettingsImplGtk.ThawBool, hg],
         by simp [SettingsImplGtk.ThawFloat, hg],
         by simp [SettingsImplGtk.ThawString, hg]⟩

/-- Concrete instance of C2 at an explicit input. -/
theorem c2_unset_key_returns_default_witness :
    json_object_object_get emptySettings.json "missing" = none ∧
    (∀ op ∈ [FreezeOp.fint "other" 3], FreezeOp.key op ≠ "missing") ∧
    SettingsImplGtk.ThawInt (applyFreezes emptySettings [FreezeOp.fint "other" 3]) "missing" 7
      = (7, applyFreezes emptySettings [FreezeOp.fint "other" 3]) :=
  ⟨rfl, by decide,
   (c2_unset_key_returns_default emptySettings "missing" rfl
      [FreezeOp.fint "other" 3] (by decide) 7 false 0.0 "d").1⟩

/-- Claim C10: `FreezePosition` is a no-op when the window is not
visible: the settings store is returned entirely unchanged. -/
theorem c10_freeze_position_invisible_noop (w : WindowState) (s : SettingsStore)
    (key : String) (h : w.visible = false) :
    WindowImplGtk.FreezePosition w s key = s := by
  simp [WindowImplGtk.FreezePosition, h]

/-- Concrete instance of C10 at an explicit input. -/
theorem c10_freeze_position_invisible_noop_witness :
    (WindowState.mk 1 2 3 4 false false).visible = false ∧
    WindowImplGtk.FreezePosition (WindowState.mk 1 2 3 4 false false) emptySettings "Win"
      = emptySettings :=
  ⟨rfl, c10_freeze_position_invisible_noop (WindowState.mk 1 2 3 4 false false)
          emptySettings "Win" rfl⟩

/-- Claim C3 counterexample: freezing the geometry of a visible,
non-maximized window stores false under "Win_Maximized", yet thawing
with that store into a currently maximized window leaves the window
maximized — the stored maximized state is not restored, refuting the
claim as stated. -/
theorem c3_maximized_not_restored_counterexample :
    json_object_object_get
        (WindowImplGtk.FreezePosition wVisA emptySettings "Win").json "Win_Maximized"
      = some (JValue.jbool false) ∧
    (WindowImplGtk.ThawPosition wMaxB
        (WindowImplGtk.FreezePosition wVisA emptySettings "Win") "Win").maximized
      = true :=
  ⟨rfl, rfl⟩

/-- Claim C3 (amended): for a visible window with int32 geometry,
`FreezePosition` stores position and size under the "_Left", "_Top",
"_Width", "_Height" keys and the maximized state under "_Maximized";
`ThawPosition` with the same key restores position and size (with the
window's current geometry as the default for any missing key) and
maximizes the window exactly when the stored flag is true, leaving an
already-maximized window maximized even when the stored flag is
false. -/
theorem c3_freeze_thaw_position (w : WindowState) (s : SettingsStore) (key : String)
    (hvis : w.visible = true)
    (hb : -2147483648 ≤ w.left ∧ w.left < 2147483648 ∧
          -2147483648 ≤ w.top ∧ w.top < 2147483648 ∧
          -2147483648 ≤ w.width ∧ w.width < 2147483648 ∧
          -2147483648 ≤ w.height ∧ w.height < 2147483648) :
    json_object_object_get (WindowImplGtk.FreezePosition w s key).json (key ++ "_Left")
      = some (.jint w.left) ∧
    json_object_object_get (WindowImplGtk.FreezePosition w s key).json (key ++ "_Top")
      = some (.jint w.top) ∧
    json_object_object_get (WindowImplGtk.FreezePosition w s key).json (key ++ "_Width")
      = some (.jint w.width) ∧
    json_object_object_get (WindowImplGtk.FreezePosition w s key).json (key ++ "_Height")
      = some (.jint w.height) ∧
    json_object_object_get (WindowImplGtk.FreezePosition w s key).json (key ++ "_Maximized")
      = some (.jbool w.maximized) ∧
    ∀ w2 : WindowState,
      WindowImplGtk.ThawPosition w2 (WindowImplGtk.FreezePosition w s key) key
        = { w2 with left := w.left, top := w.top, width := w.width, height := w.height,
                    maximized := w.maximized || w2.maximized } := by
  obtain ⟨hb1, hb2, hb3, hb4, hb5, hb6, hb7, hb8⟩ := hb
  obtain ⟨gL, gT, gW, gH, gM⟩ := freezePosition_gets w s key hvis
  rw [int32OfNat_uint32OfInt _ hb1 hb2] at gL
  rw [int32OfNat_uint32OfInt _ hb3 hb4] at gT
  rw [int32OfNat_uint32OfInt _ hb5 hb6] at gW
  rw [int32OfNat_uint32OfInt _ hb7 hb8] at gH
  refine ⟨gL, gT, gW, gH, gM, ?_⟩
  intro w2
  simp only [WindowImplGtk.ThawPosition, SettingsImplGtk.ThawInt,
             SettingsImplGtk.ThawBool, gL, gT, gW, gH, gM,
             json_object_get_int, json_object_get_boolean,
             clampI32_eq_self _ hb1 hb2, clampI32_eq_self _ hb3 hb4,
             clampI32_eq_self _ hb5 hb6, clampI32_eq_self _ hb7 hb8,
             int32OfNat_uint32OfInt _ hb1 hb2, int32OfNat_uint32OfInt _ hb3 hb4,
             int32OfNat_uint32OfInt _ hb5 hb6, int32OfNat_uint32OfInt _ hb7 hb8]
  cases hm : w.maximized <;> simp [hm]

/-- Concrete instance of the amended C3 at an explicit input. -/
theorem c3_freeze_thaw_position_witness :
    wVisA.visible = true ∧
    (-2147483648 ≤ wVisA.left ∧ wVisA.left < 2147483648 ∧
     -2147483648 ≤ wVisA.top ∧ wVisA.top < 2147483648 ∧
     -2147483648 ≤ wVisA.width ∧ wVisA.width < 2147483648 ∧
     -2147483648 ≤ wVisA.height ∧ wVisA.height < 2147483648) ∧
    json_object_object_get
        (WindowImplGtk.FreezePosition wVisA emptySettings "Win").json ("Win" ++ "_Left")
      = some (.jint wVisA.left) ∧
    WindowImplGtk.ThawPosition wMaxB
        (WindowImplGtk.FreezePosition wVisA emptySettings "Win") "Win"
      = { wMaxB with left := wVisA.left, top := wVisA.top, width := wVisA.width,
                     height := wVisA.height,
                     maximized := wVisA.maximized || wMaxB.maximized } := by
  have h := c3_freeze_thaw_position wVisA emptySettings "Win" rfl (by decide)
  exact ⟨rfl, by decide, h.1, h.2.2.2.2.2 wMaxB⟩

/-- Claim C4: for every pointer event, the translation layer builds
the toolkit-neutral mouse-event record with the event type, the
coordinates, the button taken from the explicit button number or the
held-button state bits (left before middle before right), the
shift/control modifiers from the state bits, and the scroll delta;
with a registered `onMouseEvent` callback the callback's result is
returned as whether the event was consumed, and without one the
event is reported as not consumed. -/
theorem c4_pointer_event_translation (f : MouseEvent → Bool)
    (type : MouseEventType) (x y : Float) (state : Nat)
    (button : Nat) (scroll_delta : Int) :
    process_pointer_event none type x y state button scroll_delta = false ∧
    process_pointer_event (some f) type x y state button scroll_delta
      = f (pointerMouseEvent type x y state button scroll_delta) ∧
    (pointerMouseEvent type x y state button scroll_delta).type = type ∧
    (pointerMouseEvent type x y state button scroll_delta).x = x ∧
    (pointerMouseEvent type x y state button scroll_delta).y = y ∧
    ((pointerMouseEvent type x y state button scroll_delta).shiftDown = true ↔
      Nat.land state GDK_SHIFT_MASK ≠ 0) ∧
    ((pointerMouseEvent type x y state button scroll_delta).controlDown = true ↔
      Nat.land state GDK_CONTROL_MASK ≠ 0) ∧
    (pointerMouseEvent type x y state button scroll_delta).scrollDelta = scroll_delta ∧
    (pointerMouseEvent type x y state button scroll_delta).button
      = (if button = 1 ∨ Nat.land state GDK_BUTTON1_MASK ≠ 0 then MouseButton.LEFT
         else if button = 2 ∨ Nat.land state GDK_BUTTON2_MASK ≠ 0 then MouseButton.MIDDLE
         else if button = 3 ∨ Nat.land state GDK_BUTTON3_MASK ≠ 0 then MouseButton.RIGHT
         else MouseButton.NONE) := by
  refine ⟨rfl, rfl, rfl, rfl, rfl, ?_, ?_, ?_, rfl⟩
  · simp [pointerMouseEvent]
  · simp [pointerMouseEvent]
  · by_cases h : scroll_delta = 0 <;> simp [pointerMouseEvent, h]

/-- Claim C6: `AddButton` hits its assertion exactly on
`Response::NONE`, and `RunModal` hits its assertion exactly on the
GTK response ids other than OK, YES, NO, CANCEL, NONE, CLOSE, and
DELETE_EVENT; for every valid input the assertion branch is
unreachable. -/
theorem c6_invalid_enum_asserts :
    (∀ r : Response, MessageDialogImplGtk.AddButton r = none ↔ r = Response.NONE) ∧
    (∀ gtkResponse : Int,
      MessageDialogImplGtk.RunModal gtkResponse = none ↔
        (gtkResponse ≠ GTK_RESPONSE_OK ∧ gtkResponse ≠ GTK_RESPONSE_YES ∧
         gtkResponse ≠ GTK_RESPONSE_NO ∧ gtkResponse ≠ GTK_RESPONSE_CANCEL ∧
         gtkResponse ≠ GTK_RESPONSE_NONE ∧ gtkResponse ≠ GTK_RESPONSE_CLOSE ∧
         gtkResponse ≠ GTK_RESPONSE_DELETE_EVENT)) := by
  constructor
  · intro r
    cases r <;> simp [MessageDialogImplGtk.AddButton]
  · intro g
    unfold MessageDialogImplGtk.RunModal
    split_ifs with h1 h2 h3 h4 h5
    all_goals simp_all
    all_goals tauto

/-- Claim C8: `SetActive` requires an indicator: without one the
assertion fails (`none`), and after `SetIndicator` with CHECK_MARK
or RADIO_MARK the assertion branch is unreachable and the call
forwards to the toolkit item. -/
theorem c8_set_active_requires_indicator (st : GtkMenuItemState)
    (hasOnTrigger active : Bool) :
    (st.hasIndicator = false →
      MenuItemImplGtk.SetActive st hasOnTrigger active = none) ∧
    (∀ ind : Indicator, ind = Indicator.CHECK_MARK ∨ ind = Indicator.RADIO_MARK →
      MenuItemImplGtk.SetActive (MenuItemImplGtk.SetIndicator st ind) hasOnTrigger active
        = some (GtkMenuItem.set_active (MenuItemImplGtk.SetIndicator st ind)
                  hasOnTrigger active)) := by
  constructor
  · intro h
    simp [MenuItemImplGtk.SetActive, h]
  · rintro ind (rfl | rfl) <;>
      simp [MenuItemImplGtk.SetActive, MenuItemImplGtk.SetIndicator]

/-- Concrete instance of C8 at an explicit input. -/
theorem c8_set_active_requires_indicator_witness :
    (GtkMenuItemState.mk false false false false).hasIndicator = false ∧
    MenuItemImplGtk.SetActive (GtkMenuItemState.mk false false false false) true true
      = none ∧
    (Indicator.CHECK_MARK = Indicator.CHECK_MARK ∨
     Indicator.CHECK_MARK = Indicator.RADIO_MARK) ∧
    MenuItemImplGtk.SetActive
        (MenuItemImplGtk.SetIndicator (GtkMenuItemState.mk false false false false)
          Indicator.CHECK_MARK) true true
      = some (GtkMenuItem.set_active
                (MenuItemImplGtk.SetIndicator (GtkMenuItemState.mk false false false false)
                  Indicator.CHECK_MARK) true true) := by
  have h := c8_set_active_requires_indicator (GtkMenuItemState.mk false false false false)
    true true
  exact ⟨rfl, h.1 rfl, Or.inl rfl, h.2 Indicator.CHECK_MARK (Or.inl rfl)⟩

/-- Claim C9: a programmatic `set_active` never runs `onTrigger`
(the activation is synthetic and suppressed), it is a no-op when the
requested state equals the current one, and a user-initiated
activation (outside `set_active` the synthetic flag is down) runs
`onTrigger` exactly when a callback is registered. -/
theorem c9_set_active_suppresses_trigger (st : GtkMenuItemState)
    (hasOnTrigger active : Bool) :
    (GtkMenuItem.set_active st hasOnTrigger active).2 = false ∧
    (active = st.gtkActive →
      GtkMenuItem.set_active st hasOnTrigger active = (st, false)) ∧
    (st.syntheticEvent = false →
      (GtkMenuItem.userActivate st hasOnTrigger).2 = hasOnTrigger) := by
  refine ⟨?_, ?_, ?_⟩
  · by_cases h : st.gtkActive = active <;>
      simp [GtkMenuItem.set_active, checkMenuItemSetActiveBase,
            GtkMenuItem.on_activate, h]
  · intro h
    simp [GtkMenuItem.set_active, h]
  · intro h
    simp [GtkMenuItem.userActivate, GtkMenuItem.on_activate, h]

/-- Concrete instance of C9 at an explicit input. -/
theorem c9_set_active_suppresses_trigger_witness :
    (GtkMenuItem.set_active (GtkMenuItemState.mk false true false false) true true).2
      = false ∧
    (false = (GtkMenuItemState.mk false true false false).gtkActive) ∧
    GtkMenuItem.set_active (GtkMenuItemState.mk false true false false) true false
      = ((GtkMenuItemState.mk false true false false), false) ∧
    ((GtkMenuItemState.mk false true false false).syntheticEvent = false) ∧
    (GtkMenuItem.userActivate (GtkMenuItemState.mk false true false false) true).2
      = true := by
  have h1 := c9_set_active_suppresses_trigger
    (GtkMenuItemState.mk false true false false) true true
  have h2 := c9_set_active_suppresses_trigger
    (GtkMenuItemState.mk false true false false) true false
  exact ⟨h1.1, rfl, h2.2.1 rfl, rfl, h1.2.2 rfl⟩

/-- Claim C7: the settings file path is determined from the
environment: with `XDG_CONFIG_HOME` set (nonempty) and a usable
config directory it is XDG_CONFIG_HOME/solvespace/settings.json;
otherwise with `HOME` set (nonempty) and a usable config directory
it is HOME/.config/solvespace/settings.json; with neither variable
set the empty path is returned. -/
theorem c7_config_path_from_env (env : EnvModel) (fs : FsModel) :
    (∀ xdg, env.xdgConfigHome = some xdg → xdg ≠ "" →
      dirUsable fs (pathJoin xdg "solvespace") →
      SettingsImplGtk.GetConfigPath env fs
        = pathJoin (pathJoin xdg "solvespace") "settings.json") ∧
    (env.xdgConfigHome = none → ∀ h, env.home = some h → h ≠ "" →
      dirUsable fs (pathJoin (pathJoin h ".config") "solvespace") →
      SettingsImplGtk.GetConfigPath env fs
        = pathJoin (pathJoin (pathJoin h ".config") "solvespace") "settings.json") ∧
    (env.xdgConfigHome = none → env.home = none →
      SettingsImplGtk.GetConfigPath env fs = "") := by
  obtain ⟨ex, eh⟩ := env
  refine ⟨?_, ?_, ?_⟩
  · intro xdg hx hne hdir
    cases hx
    cases hdir with
    | inl hd =>
        simp [SettingsImplGtk.GetConfigPath, getConfigPathTail, pathFrom,
              pathIsEmpty, hne, hd]
    | inr hd =>
        simp [SettingsImplGtk.GetConfigPath, getConfigPathTail, pathFrom,
              pathIsEmpty, hne, hd.1, hd.2]
  · intro hx h hh hne hdir
    cases hx
    cases hh
    cases hdir with
    | inl hd =>
        simp [SettingsImplGtk.GetConfigPath, getConfigPathTail, pathFrom,
              pathIsEmpty, pathJoin_ne_empty, hd]
    | inr hd =>
        simp [SettingsImplGtk.GetConfigPath, getConfigPathTail, pathFrom,
              pathIsEmpty, pathJoin_ne_empty, hd.1, hd.2]
  · intro hx hh
    cases hx
    cases hh
    simp [SettingsImplGtk.GetConfigPath, pathFrom]

/-- Concrete instance of C7 at an explicit input. -/
theorem c7_config_path_from_env_witness :
    envX0.xdgConfigHome = some "/xdg" ∧
    ("/xdg" : String) ≠ "" ∧
    dirUsable fsDirOkLoadFail (pathJoin "/xdg" "solvespace") ∧
    SettingsImplGtk.GetConfigPath envX0 fsDirOkLoadFail
      = pathJoin (pathJoin "/xdg" "solvespace") "settings.json" :=
  ⟨rfl, by decide, Or.inl rfl,
   (c7_config_path_from_env envX0 fsDirOkLoadFail).1 "/xdg" rfl (by decide) (Or.inl rfl)⟩

/-- Claim C5 counterexample: with `XDG_CONFIG_HOME=/xdg`, a usable
config directory, and a failing `json_object_from_file`, the
constructed store keeps the nonempty settings path — the path is not
left empty on a JSON load failure, refuting the claim as stated. -/
theorem c5_load_failure_keeps_path_counterexample :
    SettingsImplGtk.GetConfigPath envX0 fsDirOkLoadFail ≠ "" ∧
    fsDirOkLoadFail.loadJson (SettingsImplGtk.GetConfigPath envX0 fsDirOkLoadFail)
      = none ∧
    (SettingsImplGtk.mk envX0 fsDirOkLoadFail).path = "/xdg/solvespace/settings.json" := by
  refine ⟨?_, rfl, rfl⟩
  decide

/-- Claim C5 (amended): failures degrade gracefully and are only
logged.  When the config directory cannot be created or stat'ed the
path is left empty and the store starts from an empty in-memory json
object, so settings are not persisted; when the settings file cannot
be loaded the (nonempty) path is kept and the store starts from an
empty in-memory json object.  In every case the Settings operations
succeed against the in-memory store (all operations are total, so no
exception propagates). -/
theorem c5_graceful_degradation (env : EnvModel) (fs : FsModel) :
    (SettingsImplGtk.GetConfigPath env fs = "" →
      (SettingsImplGtk.mk env fs).path = "" ∧ (SettingsImplGtk.mk env fs).json = []) ∧
    (SettingsImplGtk.GetConfigPath env fs ≠ "" →
      fs.loadJson (SettingsImplGtk.GetConfigPath env fs) = none →
      (SettingsImplGtk.mk env fs).path = SettingsImplGtk.GetConfigPath env fs ∧
      (SettingsImplGtk.mk env fs).json = []) ∧
    (∀ k, ∀ v : Nat, v < 4294967296 → ∀ d : Nat,
      SettingsImplGtk.ThawInt
          (SettingsImplGtk.FreezeInt (SettingsImplGtk.mk env fs) k v) k d
        = (v, SettingsImplGtk.FreezeInt (SettingsImplGtk.mk env fs) k v)) := by
  refine ⟨?_, ?_, ?_⟩
  · intro h
    constructor
    · simp [SettingsImplGtk.mk, h]
    · simp [SettingsImplGtk.mk, pathIsEmpty, h]
  · intro h hl
    constructor
    · simp [SettingsImplGtk.mk]
    · simp [SettingsImplGtk.mk, pathIsEmpty, h, hl]
  · intro k v hv d
    simp [SettingsImplGtk.ThawInt, SettingsImplGtk.FreezeInt, jsonGet_add_self,
          json_object_get_int, clampI32_int32OfNat, uint32OfInt_int32OfNat _ hv]

/-- Concrete instance of the amended C5 at an explicit input. -/
theorem c5_graceful_degradation_witness :
    SettingsImplGtk.GetConfigPath (EnvModel.mk none none) fsDirOkLoadFail = "" ∧
    (SettingsImplGtk.mk (EnvModel.mk none none) fsDirOkLoadFail).path = "" ∧
    (SettingsImplGtk.mk (EnvModel.mk none none) fsDirOkLoadFail).json = [] ∧
    (3 : Nat) < 4294967296 ∧
    SettingsImplGtk.ThawInt
        (SettingsImplGtk.FreezeInt
          (SettingsImplGtk.mk (EnvModel.mk none none) fsDirOkLoadFail) "k" 3) "k" 7
      = (3, SettingsImplGtk.FreezeInt
              (SettingsImplGtk.mk (EnvModel.mk none none) fsDirOkLoadFail) "k" 3) := by
  have h := c5_graceful_degradation (EnvModel.mk none none) fsDirOkLoadFail
  exact ⟨rfl, (h.1 rfl).1, (h.1 rfl).2, by decide, h.2.2 "k" 3 (by decide) 7⟩

end SolveSpace
